import Mathlib

/-!
Shallow embedding of the Accolade medical-assistant triage pipeline
(`accolade_med_assistant`): the triage router graph, the iterative intake
loop, the conversation-agent verification gate, the escalation decision, and
the MedGemma reconciliation logic, together with theorems checking the
specified properties against the embedded code.

Python conventions are modelled explicitly:
 - `x in s` (substring test) is `strIn`;
 - string truthiness (`if s:`) is `optStrTruthy` / comparison with `""`;
 - `s or default` on optional strings is `pyOrElse`;
 - `str.lower` is `pyToLower`, `str.strip` is `pyTrim` (kernel-reducible
   character-list implementations, ASCII-faithful to Python).
-/

namespace Accolade

/-- Python `needle in hay` on lists of characters: contiguous-substring test. -/
def containsSub (needle : List Char) : List Char → Bool
  | [] => needle.isPrefixOf ([] : List Char)
  | c :: t => needle.isPrefixOf (c :: t) || containsSub needle t

/-- Python `needle in hay` on strings (substring containment). -/
def strIn (needle hay : String) : Bool :=
  containsSub needle.data hay.data

/-- Python `str.lower` (character-wise; the repository's vocabulary and
inputs are ASCII, where this agrees with Python). -/
def pyToLower (s : String) : String :=
  String.mk (s.data.map Char.toLower)

/-- Python `str.strip()`: drop leading and trailing whitespace. -/
def pyTrim (s : String) : String :=
  String.mk (((s.data.dropWhile Char.isWhitespace).reverse.dropWhile Char.isWhitespace).reverse)

/-- Split a character list at every separator character (separators removed,
empty pieces kept), as `str.split`/`re.split` on a character class does. -/
def splitCharList (p : Char → Bool) : List Char → List (List Char)
  | [] => [[]]
  | c :: t =>
    if p c then [] :: splitCharList p t
    else
      match splitCharList p t with
      | h :: r => (c :: h) :: r
      | [] => [[c]]

/-- String wrapper for `splitCharList`. -/
def pySplit (p : Char → Bool) (s : String) : List String :=
  (splitCharList p s.data).map String.mk

/-- Python `s.startswith(pre)` for a single candidate. -/
def pyStartsWith (s pre : String) : Bool :=
  pre.data.isPrefixOf s.data

/-- Python `s[:n]`. -/
def pyTake (s : String) (n : Nat) : String :=
  String.mk (s.data.take n)

/-- Python truthiness of an optional string: `None` and `""` are falsy. -/
def optStrTruthy : Option String → Bool
  | none => false
  | some s => !(s == "")

/-- Python `value or default` for an optional string (`None`/`""` fall back). -/
def pyOrElse (v : Option String) (d : String) : String :=
  match v with
  | none => d
  | some s => if s == "" then d else s

/-- Python `" ".join(xs)`. -/
def joinSpace (xs : List String) : String :=
  String.intercalate " " xs

/-- Python `s.split()` : split on whitespace runs, dropping empty pieces. -/
def pySplitWs (s : String) : List String :=
  (pySplit Char.isWhitespace s).filter (fun p => p != "")

/-- `dataclass VitalSigns` from `models/types.py`. -/
structure VitalSigns where
  temperature_c : Option Rat := none
  heart_rate_bpm : Option Int := none
  spo2_percent : Option Int := none
  systolic_bp : Option Int := none
  diastolic_bp : Option Int := none
deriving DecidableEq

/-- `dataclass Intake` from `models/types.py`. -/
structure Intake where
  age_years : Option Int := none
  sex : Option String := none
  symptoms : List String := []
  first_name : Option String := none
  last_name : Option String := none
  id_number : Option String := none
  duration : Option String := none
  notes : String := ""
  interview_transcript : List String := []
  camera_scene_description : Option String := none
  abrasion_findings : List String := []
  vitals : VitalSigns := {}
  scan_findings : Option String := none
  scan_image_path : Option String := none
  environment : String := "standard"
deriving DecidableEq

/-- `dataclass TriageResult` from `models/types.py`. -/
structure TriageResult where
  urgency : String
  guardrail_triggered : Bool
  guardrail_reasons : List String
  patient_verified : Bool
  patient_record_found : Bool
  patient_history : List String
  relevant_scans : List String
  rationale : List String
  immediate_actions : List String
  recommended_next_step : String
  assistant_summary : String
deriving DecidableEq

/-- `dataclass TriageConfig` from `config.py`. -/
structure TriageConfig where
  emergency_keywords : List String :=
    [ "severe chest pain", "difficulty breathing", "shortness of breath",
      "unconscious", "seizure", "stroke", "one-sided weakness",
      "heavy bleeding", "coughing blood", "suicidal" ]
  urgent_keywords : List String :=
    [ "chest pain", "chest pressure", "pain in chest", "fever",
      "persistent vomiting", "dehydration", "worsening cough",
      "blood in urine", "abdominal pain", "pregnant with pain" ]
  emergency_spo2_threshold : Int := 90
  urgent_spo2_threshold : Int := 94
deriving DecidableEq

/-- `dataclass EnvironmentProfile` from `config.py`. -/
structure EnvironmentProfile where
  name : String
  guidance_note : String
  escalation_note : String
  care_constraints : List String
deriving DecidableEq

/-- The `"standard"` entry of `default_environment_profiles()`. -/
def standardProfile : EnvironmentProfile where
  name := "standard"
  guidance_note := "Standard referral pathways are assumed to be available."
  escalation_note := "If red flags are present, proceed directly to hospital emergency care."
  care_constraints := []

/-- The `"remote_village"` entry of `default_environment_profiles()`. -/
def remoteVillageProfile : EnvironmentProfile where
  name := "remote_village"
  guidance_note := "Remote setting with no physician nearby; nurse-led stabilization and monitoring are primary."
  escalation_note := "If emergency signs are present, arrange fastest available transport while continuing stabilization."
  care_constraints :=
    [ "No immediate physician access.",
      "Advanced imaging may not be available locally.",
      "Care plan should prioritize practical bedside monitoring steps." ]

/-- The `"limited_access_region"` entry of `default_environment_profiles()`. -/
def limitedAccessRegionProfile : EnvironmentProfile where
  name := "limited_access_region"
  guidance_note := "Public/private service access may be delayed or limited by cost and local availability."
  escalation_note := "For urgent cases, prioritize same-day SOR/NPL pathways and nearest available diagnostics."
  care_constraints :=
    [ "Some diagnostics (for example MRI) may be unavailable in the city.",
      "Budget constraints should be considered when proposing tests.",
      "Prefer stepwise diagnostics and feasible referrals." ]

/-- `default_environment_profiles()` as a lookup with the `dict.get` fallback
to the `"standard"` profile used in `_apply_environment_constraints_node`. -/
def envProfile (e : String) : EnvironmentProfile :=
  if e = "standard" then standardProfile
  else if e = "remote_village" then remoteVillageProfile
  else if e = "limited_access_region" then limitedAccessRegionProfile
  else standardProfile

/-- `dataclass PatientRecord` from `data/patient_repository.py`. -/
structure PatientRecord where
  first_name : String
  last_name : String
  id_number : String
  history : List String
  scans : List String
deriving DecidableEq

/-- `LocalPatientRepository._matches`: exact trimmed ID match and
case-insensitive trimmed name match. -/
def recordMatches (entry : PatientRecord) (fn ln idn : String) : Bool :=
  pyTrim entry.id_number == pyTrim idn
    && pyToLower (pyTrim entry.first_name) == pyToLower (pyTrim fn)
    && pyToLower (pyTrim entry.last_name) == pyToLower (pyTrim ln)

/-- `LocalPatientRepository.find_patient`: first matching record, if any.
The repository payload is modelled as the loaded list of patient entries. -/
def findPatient (repo : List PatientRecord) (fn ln idn : String) : Option PatientRecord :=
  repo.find? (fun entry => recordMatches entry fn ln idn)

/-- `TriageRouter._combined_text`: single normalized lowercase text blob.
Note that `intake.scan_findings or ''` places the scan findings inside the
keyword-matched text. -/
def combinedText (intake : Intake) (patient_history relevant_scans : List String) : String :=
  let symptoms_text := joinSpace intake.symptoms
  let interview_text := joinSpace intake.interview_transcript
  let camera_text := (intake.camera_scene_description).getD ""
  let abrasion_text := joinSpace intake.abrasion_findings
  let history_text := joinSpace patient_history
  let scans_text := joinSpace relevant_scans
  let scan_text := pyOrElse intake.scan_findings ""
  (symptoms_text ++ " " ++ intake.notes ++ " " ++ scan_text ++ " " ++ interview_text
    ++ " " ++ camera_text ++ " " ++ abrasion_text ++ " " ++ history_text
    ++ " " ++ scans_text) |> pyToLower

/-- The `hard_guardrail_terms` tuple of `_guardrail_screen_node`. -/
def hardGuardrailTerms : List String :=
  [ "unconscious", "seizure", "stroke", "one-sided weakness", "suicidal",
    "coughing blood", "heavy bleeding", "possible active bleeding signal detected",
    "severe chest pain", "shortness of breath", "difficulty breathing" ]

/-- The reason string appended for a matched hard guardrail term. -/
def guardrailTermReason (term : String) : String :=
  s!"Detected guardrail symptom: {term}."

/-- The reason string appended for a critically low SpO2 reading. -/
def guardrailSpo2Reason (spo2 threshold : Int) : String :=
  s!"Detected critical SpO2: {spo2}% below emergency threshold {threshold}%."

/-- The `reasons` list accumulated by `_guardrail_screen_node`: one entry per
matched hard term (in vocabulary order), then the SpO2 reason if the reading
is strictly below the emergency threshold. -/
def guardrailReasons (cfg : TriageConfig) (intake : Intake) (combined : String) : List String :=
  let termReasons :=
    (hardGuardrailTerms.filter (fun term => strIn term combined)).map guardrailTermReason
  let spo2Reasons :=
    match intake.vitals.spo2_percent with
    | some s => if s < cfg.emergency_spo2_threshold then
        [guardrailSpo2Reason s cfg.emergency_spo2_threshold] else []
    | none => []
  termReasons ++ spo2Reasons

/-- `TriageRouter._is_emergency`. -/
def isEmergency (cfg : TriageConfig) (text : String) (intake : Intake) : Bool :=
  cfg.emergency_keywords.any (fun keyword => strIn keyword text)
    || (match intake.vitals.spo2_percent with
        | some s => decide (s < cfg.emergency_spo2_threshold)
        | none => false)

/-- `TriageRouter._is_urgent`. -/
def isUrgent (cfg : TriageConfig) (text : String) (intake : Intake) : Bool :=
  cfg.urgent_keywords.any (fun keyword => strIn keyword text)
    || (match intake.vitals.spo2_percent with
        | some s => decide (s < cfg.urgent_spo2_threshold)
        | none => false)

/-- `TriageRouter._assign_priority_node`: urgency plus appended rationale. -/
def assignPriority (cfg : TriageConfig) (intake : Intake) (combined : String)
    (rationale : List String) : String × List String :=
  let (urgency, rationale) :=
    if isEmergency cfg combined intake then
      ("emergency", rationale ++ ["Emergency symptom or critical oxygen level detected."])
    else if isUrgent cfg combined intake then
      ("urgent", rationale ++ ["Potentially serious symptom pattern detected."])
    else
      ("routine", rationale ++ ["No hard emergency triggers detected from provided inputs."])
  let rationale :=
    if optStrTruthy intake.scan_findings then
      rationale ++ ["Scan findings were included and considered for prioritization."]
    else rationale
  (urgency, rationale)

/-- `TriageRouter._actions_for_urgency`. -/
def actionsForUrgency (urgency : String) : List String :=
  if urgency = "emergency" then
    [ "Seek emergency care immediately.",
      "Do not delay for home treatment.",
      "If available, keep monitoring breathing and consciousness." ]
  else if urgency = "urgent" then
    [ "Arrange in-person clinical review as soon as possible (same day).",
      "Track symptoms and vitals every 2-4 hours.",
      "Escalate to emergency if symptoms worsen." ]
  else
    [ "Supportive care and close monitoring at home.",
      "Hydration, rest, and symptom log.",
      "Escalate if new red-flag symptoms appear." ]

/-- `TriageRouter._next_step_for_urgency`. -/
def nextStepForUrgency (urgency : String) : String :=
  if urgency = "emergency" then "Immediate emergency transfer"
  else if urgency = "urgent" then "Same-day clinical evaluation"
  else "Routine follow-up in 24-72 hours"

/-- Output record of `_apply_environment_constraints_node`. -/
structure EnvAdapted where
  immediate_actions : List String
  recommended_next_step : String
  rationale : List String
  environment_guidance : List String
deriving DecidableEq

/-- `TriageRouter._apply_environment_constraints_node`.

The source branches on the literal tag `"limited_access_poland"`, which is
kept verbatim here even though the declared `EnvironmentType` and the profile
table use `"limited_access_region"`. -/
def applyEnvironmentConstraints (intake : Intake) (urgency : String)
    (actions : List String) (next_step : String) (rationale : List String) : EnvAdapted :=
  let profile := envProfile intake.environment
  let env_guidance := profile.guidance_note :: profile.care_constraints
  if intake.environment = "remote_village" then
    let (next_step, actions) :=
      if urgency = "emergency" then
        ("Immediate nurse-led stabilization and transport coordination",
          actions ++ ["Nurse should monitor airway, breathing, circulation continuously until transfer."])
      else if urgency = "urgent" then
        ("Nurse assessment today with earliest feasible referral plan",
          actions ++ ["Define referral trigger list if travel cannot happen immediately."])
      else
        (next_step,
          actions ++ ["Schedule nurse re-check within 24 hours due to limited physician access."])
    { immediate_actions := actions
      recommended_next_step := next_step
      rationale := rationale ++ ["Recommendations adapted for remote village constraints."]
      environment_guidance := env_guidance }
  else if intake.environment = "limited_access_poland" then
    let next_step :=
      if urgency = "emergency" then "Immediate SOR/ER referral with available local transport"
      else if urgency = "urgent" then "Same-day NPL/SOR assessment and stepwise low-cost diagnostics"
      else "Primary care follow-up with staged diagnostics based on affordability"
    { immediate_actions :=
        actions
          ++ [ "Prefer available lower-cost diagnostics first when clinically safe.",
               "If MRI is unavailable locally, refer to nearest city only when it changes management." ]
      recommended_next_step := next_step
      rationale := rationale ++ ["Recommendations adapted for limited service and budget constraints."]
      environment_guidance := env_guidance }
  else
    { immediate_actions := actions ++ [profile.escalation_note]
      recommended_next_step := next_step
      rationale := rationale
      environment_guidance := env_guidance }

/-- `TriageRouter._default_summary`. -/
def defaultSummary (urgency : String) (actions : List String) (next_step : String) : String :=
  s!"Preliminary triage level: {urgency}. Immediate actions: " ++ joinSpace actions
    ++ s!" Recommended next step: {next_step}."

/-- `TriageRouter._select_relevant_scans`. -/
def selectRelevantScans (record : PatientRecord) (intake : Intake) : List String :=
  if record.scans.isEmpty then []
  else
    let scan_entries := record.scans
    let symptom_words :=
      (intake.symptoms.flatMap (fun symptom => pySplitWs symptom.toLower)).filter
        (fun token => decide (3 < token.length))
    if symptom_words.isEmpty then scan_entries.drop (scan_entries.length - 2)
    else
      let matched :=
        scan_entries.filter (fun scan => symptom_words.any (fun word => strIn word (pyToLower scan)))
      if matched.isEmpty then scan_entries.drop (scan_entries.length - 2)
      else matched.take 3

/-- `TriageRouter._verify_patient_node`: `bool(first and last and id)`. -/
def verifyPatient (intake : Intake) : Bool :=
  optStrTruthy intake.first_name && optStrTruthy intake.last_name
    && optStrTruthy intake.id_number

/-- `TriageRouter._fetch_patient_context_node`: (record_found, history, scans). -/
def fetchPatientContext (repo : List PatientRecord) (intake : Intake)
    (verified : Bool) : Bool × List String × List String :=
  if !verified then (false, [], [])
  else
    match findPatient repo ((intake.first_name).getD "") ((intake.last_name).getD "")
        ((intake.id_number).getD "") with
    | none => (false, [], [])
    | some record => (true, record.history, selectRelevantScans record intake)

/-- The rationale seeded by `TriageRouter._prepare_context_node`. -/
def prepareRationale (verified found : Bool) : List String :=
  if verified then
    if found then ["Patient identity verified and local history was retrieved."]
    else ["Patient identity provided, but no local record was found."]
  else ["Patient identity was not fully provided; proceeding without history lookup."]

/-- The `(record_found, history, scans)` triple the graph state carries after
`verify_patient → fetch_patient_context`. -/
def runFetched (repo : List PatientRecord) (intake : Intake) : Bool × List String × List String :=
  fetchPatientContext repo intake (verifyPatient intake)

/-- The `combined_text` field produced by `_prepare_context_node`. -/
def runCombined (repo : List PatientRecord) (intake : Intake) : String :=
  combinedText intake (runFetched repo intake).2.1 (runFetched repo intake).2.2

/-- The guardrail reasons computed by `_guardrail_screen_node` on the run's
combined text. -/
def runReasons (cfg : TriageConfig) (repo : List PatientRecord) (intake : Intake) : List String :=
  guardrailReasons cfg intake (runCombined repo intake)

/-- The `(urgency, rationale)` pair after the conditional edge out of
`guardrail_screen`: the guardrail override when any reason fired, otherwise
`_assign_priority_node`. -/
def runUrgencyRationale (cfg : TriageConfig) (repo : List PatientRecord)
    (intake : Intake) : String × List String :=
  let rationale0 := prepareRationale (verifyPatient intake) (runFetched repo intake).1
  if (runReasons cfg repo intake).isEmpty then
    assignPriority cfg intake (runCombined repo intake) rationale0
  else ("emergency", rationale0 ++ ["Safety guardrail override applied."])

/-- `TriageRouter.run`: the full triage graph
`verify_patient → fetch_patient_context → prepare_context → guardrail_screen
→ {build_recommendations | assign_priority → build_recommendations}
→ apply_environment_constraints → summarize → finalize`.

`llm_summary` stands for the value returned by the external
`LocalLLMClient.summarize` collaborator for this case (`none` models an
unavailable model; Python falsy `""` likewise falls back, so the `summarize`
node keeps `llm_summary or self._default_summary(...)`). -/
def runTriage (cfg : TriageConfig) (repo : List PatientRecord)
    (llm_summary : Option String) (intake : Intake) : TriageResult :=
  let patient_verified := verifyPatient intake
  let fetched := runFetched repo intake
  let reasons := runReasons cfg repo intake
  let guardrail_triggered := !reasons.isEmpty
  let urgency := (runUrgencyRationale cfg repo intake).1
  let rationale1 := (runUrgencyRationale cfg repo intake).2
  let actions := actionsForUrgency urgency
  let next_step := nextStepForUrgency urgency
  let adapted := applyEnvironmentConstraints intake urgency actions next_step rationale1
  let summary :=
    pyOrElse llm_summary
      (defaultSummary urgency adapted.immediate_actions adapted.recommended_next_step)
  { urgency := urgency
    guardrail_triggered := guardrail_triggered
    guardrail_reasons := reasons
    patient_verified := patient_verified
    patient_record_found := fetched.1
    patient_history := fetched.2.1
    relevant_scans := fetched.2.2
    rationale := adapted.rationale
    immediate_actions := adapted.immediate_actions
    recommended_next_step := adapted.recommended_next_step
    assistant_summary := summary }

/-! ## Iterative intake loop (`intake/iterative_intake_workflow.py`,
`intake/patient_intake_mock.py`) -/

/-- `dataclass PatientSessionInput` from `models/types.py`.
`mock_followup_answers` is the bounded map of pre-supplied answers. -/
structure PatientSessionInput where
  age_years : Option Int := none
  sex : Option String := none
  first_name : Option String := none
  last_name : Option String := none
  id_number : Option String := none
  environment : String := "standard"
  patient_message : String := ""
  scan_image_path : Option String := none
  scan_findings : Option String := none
  duration : Option String := none
  camera_enabled : Bool := true
  mock_followup_answers : List (String × String) := []
deriving DecidableEq

/-- `dict.get(key, default)` on a key/value list. -/
def dictGetD (m : List (String × String)) (key dflt : String) : String :=
  match m.find? (fun kv => kv.1 == key) with
  | some kv => kv.2
  | none => dflt

/-- The `keyword_map` of `MockPatientIntakeAgent.extract_symptoms_from_text`. -/
def symptomKeywordMap : List (String × List String) :=
  [ ("shortness of breath", ["shortness of breath", "breathless", "difficulty breathing"]),
    ("chest pain", ["chest pain"]),
    ("fever", ["fever", "high temperature"]),
    ("cough", ["cough"]),
    ("abdominal pain", ["abdominal pain", "stomach pain"]),
    ("vomiting", ["vomiting", "vomit"]),
    ("bleeding", ["bleeding", "blood loss"]),
    ("abrasion", ["abrasion", "scrape", "wound", "cut"]) ]

/-- The `detected` list of `extract_symptoms_from_text`: normalized labels
whose variant keywords occur in the lowercased message plus transcript. -/
def detectedSymptoms (message : String) (transcript : List String) : List String :=
  let text := pyToLower (message ++ " " ++ joinSpace transcript)
  (symptomKeywordMap.filter (fun kv => kv.2.any (fun term => strIn term text))).map
    (fun kv => kv.1)

/-- `MockPatientIntakeAgent.extract_symptoms_from_text`:
`detected or ["general malaise"]`. -/
def extractSymptomsFromText (message : String) (transcript : List String) : List String :=
  let detected := detectedSymptoms message transcript
  if detected.isEmpty then ["general malaise"] else detected

/-- `MockPatientIntakeAgent.camera_tool_describe`. -/
def cameraToolDescribe (s : PatientSessionInput) (text_override : Option String) : String :=
  let text := pyToLower (pyOrElse text_override s.patient_message)
  if strIn "cough" text || strIn "breath" text then
    "Patient appears fatigued with mild increased breathing effort."
  else if strIn "wound" text || strIn "cut" text || strIn "abrasion" text then
    "Visible superficial skin injury noted on exposed area."
  else "Patient visible in stable seated posture; no obvious distress detected."

/-- `MockPatientIntakeAgent.camera_tool_abrasion_scan`. -/
def cameraToolAbrasionScan (s : PatientSessionInput) (text_override : Option String) : List String :=
  let text := pyToLower (pyOrElse text_override s.patient_message)
  let findings :=
    if ["abrasion", "scrape", "cut", "wound"].any (fun token => strIn token text) then
      ["Possible superficial abrasion detected"]
    else []
  if strIn "bleeding" text then findings ++ ["Possible active bleeding signal detected"]
  else findings

/-- A single-quote character, used by the Python list repr in the camera
transcript line. -/
def pyQuote : String := String.mk [Char.ofNat 39]

/-- Python `repr` of a list of plain strings (as interpolated by the f-string
in `_camera_tool_node`). -/
def pyReprStrList (xs : List String) : String :=
  "[" ++ String.intercalate ", " (xs.map (fun x => pyQuote ++ x ++ pyQuote)) ++ "]"

/-- The loop-carried part of `IntakeState` at the `collect_signals` node. -/
structure IntakeLoopState where
  transcript : List String
  aggregated_text : String
  duration : Option String
  turn_count : Nat
  camera_done : Bool
  camera_scene_description : Option String
  abrasion_findings : List String
deriving DecidableEq

/-- `IterativeIntakeWorkflow._initialize_node`. -/
def initIntakeState (s : PatientSessionInput) : IntakeLoopState :=
  let opening := pyOrElse (some s.patient_message) "No initial statement."
  { transcript := [s!"Patient opening statement: {opening}"]
    aggregated_text := s.patient_message
    duration := s.duration
    turn_count := 0
    camera_done := false
    camera_scene_description := none
    abrasion_findings := [] }

/-- The `missing` list of `_assess_completeness_node`: `symptoms` before
`duration` (a `None` or empty duration counts as missing). -/
def assessMissing (symptoms : List String) (duration : Option String) : List String :=
  (if symptoms.isEmpty || symptoms = ["general malaise"] then ["symptoms"] else [])
    ++ (if optStrTruthy duration then [] else ["duration"])

/-- `IterativeIntakeWorkflow._question_for_field`. -/
def questionForField (field : String) : String :=
  if field = "duration" then "How long have these symptoms been present?"
  else if field = "symptoms" then "Can you describe your main symptoms in a few words?"
  else "Can you provide more details?"

/-- `IterativeIntakeWorkflow._finalize_node`: the finalized `Intake`. -/
def finalizeIntake (s : PatientSessionInput) (st : IntakeLoopState)
    (symptoms : List String) : Intake :=
  { age_years := s.age_years
    sex := s.sex
    symptoms := symptoms
    first_name := s.first_name
    last_name := s.last_name
    id_number := s.id_number
    duration := st.duration
    notes := pyTrim st.aggregated_text
    interview_transcript := st.transcript
    camera_scene_description := st.camera_scene_description
    abrasion_findings := st.abrasion_findings
    vitals := {}
    scan_findings := s.scan_findings
    scan_image_path := s.scan_image_path
    environment := s.environment }

/-- One macro-step of the bounded intake state machine, taken from the
`collect_signals` node: `collect_signals → assess_completeness →
{camera_tool | ask_followup | finalize_intake}`, per `_route_after_assessment`
(the camera branch is checked first, then completeness). `.inl` is the state
carried back into `collect_signals`; `.inr` is the finalized intake. -/
def intakeStep (maxTurns : Nat) (s : PatientSessionInput)
    (st : IntakeLoopState) : IntakeLoopState ⊕ Intake :=
  let symptoms := extractSymptomsFromText st.aggregated_text st.transcript
  let missing := assessMissing symptoms st.duration
  let complete := missing.isEmpty || decide (maxTurns ≤ st.turn_count)
  if s.camera_enabled && !st.camera_done then
    let text := st.aggregated_text
    let camera_description := cameraToolDescribe s (some text)
    let abrasions := cameraToolAbrasionScan s (some text)
    let shown := pyReprStrList (if abrasions.isEmpty then ["none"] else abrasions)
    .inl { st with
      camera_done := true
      camera_scene_description := some camera_description
      abrasion_findings := abrasions
      transcript := st.transcript
        ++ [s!"Tool:camera observation => {camera_description}; abrasions => {shown}"] }
  else if complete then
    .inr (finalizeIntake s st symptoms)
  else
    let field := match missing with | f :: _ => f | [] => "general"
    let question := questionForField field
    let answer := dictGetD s.mock_followup_answers field "unknown"
    let transcript := st.transcript ++ [s!"Q: {question} A: {answer}"]
    let aggregated := pyTrim (st.aggregated_text ++ " " ++ answer)
    let duration :=
      if field = "duration" && answer ≠ "unknown" then some answer else st.duration
    .inl { st with
      transcript := transcript
      aggregated_text := aggregated
      turn_count := st.turn_count + 1
      duration := duration }

/-- The intake loop: iterate `intakeStep` until finalization. `fuel` only
bounds the recursion; the sufficiency proof below shows it is never exhausted
at `max_turns + 2`. -/
def intakeLoopAux (maxTurns : Nat) (s : PatientSessionInput) :
    Nat → IntakeLoopState → Option Intake
  | 0, _ => none
  | fuel + 1, st =>
    match intakeStep maxTurns s st with
    | .inr intake => some intake
    | .inl st' => intakeLoopAux maxTurns s fuel st'

/-- `IterativeIntakeWorkflow.run` (default `max_turns = 4`): the bounded loop
started from `_initialize_node`, with fuel `max_turns + 2` (enough for every
follow-up turn, the single optional camera step, and finalization). -/
def runIntakeWorkflow (maxTurns : Nat) (s : PatientSessionInput) : Option Intake :=
  intakeLoopAux maxTurns s (maxTurns + 2) (initIntakeState s)

/-- Variant of the loop measure: remaining follow-up budget plus one pending
camera step. Strictly decreases along `.inl` steps. -/
def intakeMeasure (maxTurns : Nat) (s : PatientSessionInput) (st : IntakeLoopState) : Nat :=
  (maxTurns - st.turn_count) + (if s.camera_enabled && !st.camera_done then 1 else 0)

/-! ## Conversation agent (`workflow/conversation_agent_graph.py`) -/

/-- `dataclass ConversationSessionInput` from `models/types.py`. -/
structure ConversationSessionInput extends PatientSessionInput where
  camera_estimated_age : Option Int := none
  camera_estimated_sex : Option String := none
  verification_followup_answers : List (String × String) := []
  additional_questions : List String := []
  use_medgemma : Bool := false
deriving DecidableEq

/-- `ConversationAgentGraph._verify_user_node`: verification notes and the
mismatch flag (the node also sets `verification_complete = not mismatch`). -/
def verifyUser (s : ConversationSessionInput) : List String × Bool :=
  let notes :=
    if optStrTruthy s.first_name && optStrTruthy s.last_name && optStrTruthy s.id_number then
      ["Identity provided: name and ID present."]
    else ["Identity incomplete: proceeding with reduced verification confidence."]
  if s.camera_enabled && (s.camera_estimated_age.isSome || optStrTruthy s.camera_estimated_sex) then
    let (notes, mismatch) :=
      match s.camera_estimated_age, s.age_years with
      | some est, some claimed =>
        if 15 ≤ (est - claimed).natAbs then
          (notes ++ [s!"Camera age estimate mismatch ({est}) vs claimed age ({claimed})."], true)
        else (notes, false)
      | _, _ => (notes, false)
    if optStrTruthy s.camera_estimated_sex && optStrTruthy s.sex then
      let est := (s.camera_estimated_sex).getD ""
      let claimed := (s.sex).getD ""
      if pyToLower est ≠ pyToLower claimed then
        (notes ++ [s!"Camera sex estimate mismatch ({est}) vs claimed sex ({claimed})."], true)
      else (notes, mismatch)
    else (notes, mismatch)
  else (notes, false)

/-- `ConversationAgentGraph._route_after_verification`. -/
def routeAfterVerification (mismatch : Bool) : String :=
  if mismatch then "verification_followup" else "generate_intake"

/-- `ConversationAgentGraph._decide_medgemma_node`.
`disabled` models the `ACCOLADE_DISABLE_MEDGEMMA` environment switch; `cheap`
models the verdict of the external `DualModelController.should_call_medgemma`
classifier (a called?/reason pair). -/
def decideMedgemma (disabled : Bool) (s : ConversationSessionInput)
    (triage : TriageResult) (cheap : Bool × String) : Bool × String :=
  if disabled then (false, "Disabled by ACCOLADE_DISABLE_MEDGEMMA.")
  else if triage.urgency = "urgent" || triage.urgency = "emergency" then
    let u := triage.urgency
    (true, s!"Automatic MedGemma call for non-routine triage ({u}).")
  else
    let (call, reason) := cheap
    if s.use_medgemma then (true, s!"Forced by session flag. Original decision: {reason}")
    else (call, reason)

/-- The structured output of the external `medgemma_recommendations` call, as
read by `_medgemma_recommend_node`. `none` in `immediate_actions` covers both
a missing key and a non-list value (the code resolves both to the prior
action list). -/
structure MedgemmaParsed where
  urgency : Option String := none
  recommended_next_step : Option String := none
  immediate_actions : Option (List String) := none
  rationale : Option String := none
deriving DecidableEq

/-- The structured-output branch of `_medgemma_recommend_node`: field-by-field
replacement of the triage result with validation, extending the rationale. -/
def medgemmaRecommendStructured (triage : TriageResult) (p : MedgemmaParsed) : TriageResult :=
  let urgency0 := pyToLower ((p.urgency).getD triage.urgency)
  let urgency :=
    if urgency0 = "emergency" || urgency0 = "urgent" || urgency0 = "routine" then urgency0
    else triage.urgency
  let next_step := (p.recommended_next_step).getD triage.recommended_next_step
  let actions :=
    match p.immediate_actions with
    | some l => if l.isEmpty then triage.immediate_actions else l
    | none => triage.immediate_actions
  let rationale_text := (p.rationale).getD "Recommendations generated by MedGemma."
  { triage with
    urgency := urgency
    immediate_actions := actions
    recommended_next_step := next_step
    rationale := triage.rationale ++ [s!"MedGemma rationale: {rationale_text}"] }

/-- The `blocked_prefixes` tuple of `_override_triage_from_medgemma_text`. -/
def blockedPrefixes : List String :=
  [ "patient:", "symptoms:", "interview:", "vitals:", "scan:",
    "environment:", "analysis:", "case summary:", "triage assessment:" ]

/-- The `action_terms` tuple of `_override_triage_from_medgemma_text`. -/
def actionTerms : List String :=
  [ "go", "seek", "call", "monitor", "rest", "hydrate", "use", "take",
    "avoid", "start", "arrange", "transfer", "refer", "contact" ]

/-- `lower_item.startswith(blocked_prefixes)`. -/
def startsWithBlocked (s : String) : Bool :=
  blockedPrefixes.any (fun p => pyStartsWith s p)

/-- `any(term in lower_item for term in action_terms)`. -/
def containsActionTerm (s : String) : Bool :=
  actionTerms.any (fun term => strIn term s)

/-- The regex `^([-*]|\x5cd+\x5c.)\x5cs+` of the list-line extraction: strips a
leading `-`, `*`, or digits-then-dot marker followed by at least one
whitespace character (greedily consumed), or fails. -/
def dropListMarker (cs : List Char) : Option (List Char) :=
  let afterMarker : Option (List Char) :=
    match cs with
    | '-' :: rest => some rest
    | '*' :: rest => some rest
    | _ =>
      if (cs.takeWhile Char.isDigit).isEmpty then none
      else
        match cs.dropWhile Char.isDigit with
        | '.' :: rest => some rest
        | _ => none
  match afterMarker with
  | none => none
  | some rest =>
    match rest with
    | c :: t => if c.isWhitespace then some (t.dropWhile Char.isWhitespace) else none
    | [] => none

/-- Python `str.splitlines` restricted to newline/carriage-return separators
(`\r\n` yields a spurious empty piece, which matches no list marker and is
therefore inert in the extraction below). -/
def pySplitLines (s : String) : List String :=
  pySplit (fun c => c = '\n' || c = '\r') s

/-- The first (list-formatted lines) action-extraction pass of
`_override_triage_from_medgemma_text`. -/
def collectListActions (lines : List String) : List String :=
  lines.foldl
    (fun acc line =>
      let cleaned := pyTrim line
      match dropListMarker cleaned.data with
      | none => acc
      | some rest =>
        let item := pyTrim (String.mk rest)
        let lower_item := pyToLower item
        if startsWithBlocked lower_item then acc
        else if containsActionTerm lower_item then acc ++ [item]
        else acc)
    []

/-- The regex split `[.;]\x5cs+`: cut at a period or semicolon followed by at
least one whitespace character, consuming the separator greedily. -/
def splitSentencesAux (cs : List Char) (acc : List Char) : List String :=
  match cs with
  | [] => [String.mk acc.reverse]
  | c :: rest =>
    if (c = '.' || c = ';')
        && (match rest with | d :: _ => d.isWhitespace | [] => false) then
      String.mk acc.reverse :: splitSentencesAux (rest.dropWhile Char.isWhitespace) []
    else
      splitSentencesAux rest (c :: acc)
termination_by cs.length
decreasing_by
  · exact Nat.lt_succ_of_le (List.dropWhile_suffix _).sublist.length_le
  · exact Nat.lt_succ_of_le (Nat.le_refl _)

/-- `[p.strip() for p in re.split(r"[.;]\x5cs+", text) if p.strip()]`. -/
def pySentences (text : String) : List String :=
  ((splitSentencesAux text.data []).map pyTrim).filter (fun p => p != "")

/-- The second (sentence-split) action-extraction pass, stopping as soon as
three candidates are collected. -/
def collectSentenceActions : List String → List String → List String
  | [], acc => acc
  | sentence :: rest, acc =>
    let lower_sentence := pyToLower sentence
    if startsWithBlocked lower_sentence then collectSentenceActions rest acc
    else
      let acc := if containsActionTerm lower_sentence then acc ++ [sentence] else acc
      if 3 ≤ acc.length then acc else collectSentenceActions rest acc

/-- `ConversationAgentGraph._override_triage_from_medgemma_text`: heuristic
reconciliation of unstructured MedGemma free text into the triage result. -/
def overrideTriageFromText (triage : TriageResult) (raw : String) : TriageResult :=
  let text := pyTrim raw
  if text = "" then triage
  else
    let lowered := pyToLower text
    let urgency :=
      if strIn "emergency" lowered then "emergency"
      else if strIn "urgent" lowered then "urgent"
      else if strIn "routine" lowered then "routine"
      else triage.urgency
    let actions := collectListActions (pySplitLines text)
    let actions := if actions.isEmpty then collectSentenceActions (pySentences text) [] else actions
    let actions := if actions.isEmpty then triage.immediate_actions else actions
    let next_step := match actions with | [] => triage.recommended_next_step | a :: _ => a
    let short := pyTake text 300
    { triage with
      urgency := urgency
      immediate_actions := actions
      recommended_next_step := next_step
      rationale := triage.rationale ++ [s!"MedGemma free-text rationale: {short}"] }

/-- `ConversationAgentGraph._is_unusable_medgemma_text`. -/
def isUnusableMedgemmaText (text : String) : Bool :=
  let lowered := pyTrim (pyToLower text)
  [ "the user wants me to act as", "output must be strict json", "return only",
    "do not include keys", "no markdown, no bullets", "provide a json output"
  ].any (fun m => strIn m lowered)

/-- `ConversationAgentGraph._medgemma_recommend_node`: given the prior triage
result and the external model's `(parsed, raw)` reply, the updated triage
result and the `medgemma_feedback` note. An empty `raw` models a falsy
(empty/absent) raw reply. -/
def medgemmaRecommendNode (triage : TriageResult) (parsed : Option MedgemmaParsed)
    (raw : String) : TriageResult × Option String :=
  match parsed with
  | some p => (medgemmaRecommendStructured triage p, some raw)
  | none =>
    if raw ≠ "" then
      if isUnusableMedgemmaText raw then
        (triage, some "MedGemma response was non-clinical/instructional; using baseline triage.")
      else (overrideTriageFromText triage raw, some raw)
    else (triage, some raw)

/-- A minimal triage result of the given urgency, for concrete arbitration
witnesses. -/
def plainTriage (u : String) : TriageResult :=
  { urgency := u, guardrail_triggered := false, guardrail_reasons := [],
    patient_verified := false, patient_record_found := false, patient_history := [],
    relevant_scans := [], rationale := ["baseline"], immediate_actions := ["a1", "a2"],
    recommended_next_step := "n", assistant_summary := "s" }

/-! ## Helper lemmas -/

theorem runTriage_urgency (cfg : TriageConfig) (repo : List PatientRecord)
    (llm : Option String) (intake : Intake) :
    (runTriage cfg repo llm intake).urgency = (runUrgencyRationale cfg repo intake).1 := by
  unfold runTriage
  dsimp only

theorem runTriage_triggered (cfg : TriageConfig) (repo : List PatientRecord)
    (llm : Option String) (intake : Intake) :
    (runTriage cfg repo llm intake).guardrail_triggered
      = !(runReasons cfg repo intake).isEmpty := by
  unfold runTriage
  dsimp only

theorem runTriage_reasons (cfg : TriageConfig) (repo : List PatientRecord)
    (llm : Option String) (intake : Intake) :
    (runTriage cfg repo llm intake).guardrail_reasons = runReasons cfg repo intake := by
  unfold runTriage
  dsimp only

theorem runTriage_rationale (cfg : TriageConfig) (repo : List PatientRecord)
    (llm : Option String) (intake : Intake) :
    (runTriage cfg repo llm intake).rationale =
      (applyEnvironmentConstraints intake (runUrgencyRationale cfg repo intake).1
        (actionsForUrgency (runUrgencyRationale cfg repo intake).1)
        (nextStepForUrgency (runUrgencyRationale cfg repo intake).1)
        (runUrgencyRationale cfg repo intake).2).rationale := by
  unfold runTriage
  dsimp only

theorem runReasons_ne_nil_of_spo2 (cfg : TriageConfig) (repo : List PatientRecord)
    (intake : Intake) (s : Int) (hs : intake.vitals.spo2_percent = some s)
    (hlt : s < cfg.emergency_spo2_threshold) :
    runReasons cfg repo intake ≠ [] := by
  unfold runReasons guardrailReasons
  rw [hs]
  simp [hlt]

theorem runUrgencyRationale_of_guardrail (cfg : TriageConfig) (repo : List PatientRecord)
    (intake : Intake) (h : runReasons cfg repo intake ≠ []) :
    runUrgencyRationale cfg repo intake =
      ("emergency",
        prepareRationale (verifyPatient intake) (runFetched repo intake).1
          ++ ["Safety guardrail override applied."]) := by
  have hie : (runReasons cfg repo intake).isEmpty = false := by
    cases hr : runReasons cfg repo intake
    · exact absurd hr h
    · rfl
  unfold runUrgencyRationale
  simp [hie]

theorem runTriage_of_guardrail (cfg : TriageConfig) (repo : List PatientRecord)
    (llm : Option String) (intake : Intake) (h : runReasons cfg repo intake ≠ []) :
    (runTriage cfg repo llm intake).urgency = "emergency" ∧
    (runTriage cfg repo llm intake).guardrail_triggered = true := by
  have hie : (runReasons cfg repo intake).isEmpty = false := by
    cases hr : runReasons cfg repo intake
    · exact absurd hr h
    · rfl
  constructor
  · rw [runTriage_urgency, runUrgencyRationale_of_guardrail cfg repo intake h]
  · rw [runTriage_triggered, hie]
    rfl

/-! ## Claims -/

/-- C2: for every intake whose vitals include an SpO2 reading strictly below
the configured emergency threshold (default 90), `TriageRouter.run` returns
urgency `"emergency"` with `guardrail_triggered = true`, whatever the symptom
text, notes, or other signals contain. -/
theorem low_spo2_forces_emergency (cfg : TriageConfig) (repo : List PatientRecord)
    (llm : Option String) (intake : Intake) (s : Int)
    (hs : intake.vitals.spo2_percent = some s)
    (hlt : s < cfg.emergency_spo2_threshold) :
    (runTriage cfg repo llm intake).urgency = "emergency" ∧
    (runTriage cfg repo llm intake).guardrail_triggered = true :=
  runTriage_of_guardrail cfg repo llm intake
    (runReasons_ne_nil_of_spo2 cfg repo intake s hs hlt)

/-- C2 witness: the repository's low-SpO2 scenario (SpO2 = 88, symptoms
`["cough"]`) at the default configuration. -/
theorem low_spo2_forces_emergency_witness :
    (runTriage {} [] none
        { symptoms := ["cough"], vitals := { spo2_percent := some 88 } }).urgency
      = "emergency" ∧
    (runTriage {} [] none
        { symptoms := ["cough"], vitals := { spo2_percent := some 88 } }).guardrail_triggered
      = true :=
  low_spo2_forces_emergency {} [] none
    { symptoms := ["cough"], vitals := { spo2_percent := some 88 } } 88 rfl (by decide)

theorem runReasons_ne_nil_of_term (cfg : TriageConfig) (repo : List PatientRecord)
    (intake : Intake) (t : String) (ht : t ∈ hardGuardrailTerms)
    (hm : strIn t (runCombined repo intake) = true) :
    runReasons cfg repo intake ≠ [] := by
  unfold runReasons guardrailReasons
  intro hnil
  rcases List.append_eq_nil.mp hnil with ⟨h1, _⟩
  rw [List.map_eq_nil_iff] at h1
  have : t ∈ hardGuardrailTerms.filter (fun term => strIn term (runCombined repo intake)) :=
    List.mem_filter.mpr ⟨ht, hm⟩
  rw [h1] at this
  exact absurd this (List.not_mem_nil t)

theorem mem_runReasons_of_term (cfg : TriageConfig) (repo : List PatientRecord)
    (intake : Intake) (u : String) (hu : u ∈ hardGuardrailTerms)
    (hm : strIn u (runCombined repo intake) = true) :
    guardrailTermReason u ∈ runReasons cfg repo intake := by
  unfold runReasons guardrailReasons
  exact List.mem_append_left _
    (List.mem_map_of_mem guardrailTermReason (List.mem_filter.mpr ⟨hu, hm⟩))

theorem mem_applyEnv_rationale (intake : Intake) (u : String) (a : List String)
    (n : String) (r : List String) (x : String)
    (hx : x ∈ (applyEnvironmentConstraints intake u a n r).rationale) :
    x ∈ r ∨ x = "Recommendations adapted for remote village constraints."
      ∨ x = "Recommendations adapted for limited service and budget constraints." := by
  unfold applyEnvironmentConstraints at hx
  split_ifs at hx <;> simp_all <;> tauto

theorem mem_prepareRationale (v f : Bool) (x : String) (hx : x ∈ prepareRationale v f) :
    x = "Patient identity verified and local history was retrieved."
      ∨ x = "Patient identity provided, but no local record was found."
      ∨ x = "Patient identity was not fully provided; proceeding without history lookup." := by
  unfold prepareRationale at hx
  split_ifs at hx <;> simp_all

/-- C8: whenever a hard-trigger phrase occurs in the combined case text, the
run returns urgency `"emergency"` with the guardrail flag set, reports one
reason per matched hard-trigger phrase (all of them, not just the first), and
the ordinary priority classifier's rationale entries never appear — even when
an `"urgent"` keyword is simultaneously present. -/
theorem hard_trigger_forces_emergency (cfg : TriageConfig) (repo : List PatientRecord)
    (llm : Option String) (intake : Intake) (t : String)
    (ht : t ∈ hardGuardrailTerms) (hm : strIn t (runCombined repo intake) = true) :
    (runTriage cfg repo llm intake).urgency = "emergency" ∧
    (runTriage cfg repo llm intake).guardrail_triggered = true ∧
    (∀ u, u ∈ hardGuardrailTerms → strIn u (runCombined repo intake) = true →
      guardrailTermReason u ∈ (runTriage cfg repo llm intake).guardrail_reasons) ∧
    "Potentially serious symptom pattern detected." ∉ (runTriage cfg repo llm intake).rationale ∧
    "No hard emergency triggers detected from provided inputs."
      ∉ (runTriage cfg repo llm intake).rationale := by
  have hne := runReasons_ne_nil_of_term cfg repo intake t ht hm
  obtain ⟨hu, htr⟩ := runTriage_of_guardrail cfg repo llm intake hne
  refine ⟨hu, htr, ?_, ?_, ?_⟩
  · intro u huh hum
    rw [runTriage_reasons]
    exact mem_runReasons_of_term cfg repo intake u huh hum
  · intro hmem
    rw [runTriage_rationale, runUrgencyRationale_of_guardrail cfg repo intake hne] at hmem
    rcases mem_applyEnv_rationale _ _ _ _ _ _ hmem with h | h | h
    · rcases List.mem_append.mp h with h | h
      · rcases mem_prepareRationale _ _ _ h with h | h | h <;> simp_all
      · simp_all
    · simp_all
    · simp_all
  · intro hmem
    rw [runTriage_rationale, runUrgencyRationale_of_guardrail cfg repo intake hne] at hmem
    rcases mem_applyEnv_rationale _ _ _ _ _ _ hmem with h | h | h
    · rcases List.mem_append.mp h with h | h
      · rcases mem_prepareRationale _ _ _ h with h | h | h <;> simp_all
      · simp_all
    · simp_all
    · simp_all

/-- C8 witness: the repository's precedence scenario — `"severe chest pain"`
(hard trigger) together with `"persistent vomiting"` (urgent keyword). -/
theorem hard_trigger_forces_emergency_witness :
    (runTriage {} [] none
        { symptoms := ["persistent vomiting", "severe chest pain"],
          vitals := { spo2_percent := some 96 } }).urgency = "emergency" ∧
    guardrailTermReason "severe chest pain" ∈
      (runTriage {} [] none
        { symptoms := ["persistent vomiting", "severe chest pain"],
          vitals := { spo2_percent := some 96 } }).guardrail_reasons := by
  have h := hard_trigger_forces_emergency {} [] none
    { symptoms := ["persistent vomiting", "severe chest pain"],
      vitals := { spo2_percent := some 96 } }
    "severe chest pain" (by decide) (by decide)
  exact ⟨h.1, h.2.2.1 "severe chest pain" (by decide) (by decide)⟩

/-- C1 (code divergence): on the repository's low-SpO2 guardrail case the
baseline triage is guardrail-triggered with urgency `"emergency"`, yet the
structured MedGemma reconciliation accepts a parsed `"routine"` urgency and
downgrades the final result — the guardrail override is not protected against
downstream model output. -/
theorem guardrail_urgency_downgraded_by_medgemma :
    (runTriage {} [] none
        { symptoms := ["cough"], vitals := { spo2_percent := some 88 } }).guardrail_triggered
      = true ∧
    (runTriage {} [] none
        { symptoms := ["cough"], vitals := { spo2_percent := some 88 } }).urgency
      = "emergency" ∧
    (medgemmaRecommendNode
        (runTriage {} [] none
          { symptoms := ["cough"], vitals := { spo2_percent := some 88 } })
        (some { urgency := some "routine" }) "routine").1.urgency = "routine" := by
  decide

/-- C3 (code divergence): for the declared resource-limited environment tag
`"limited_access_region"` with urgent urgency, no lower-cost-diagnostics
action is appended — the branch that would append it is keyed to the literal
`"limited_access_poland"`, which is outside the declared environment set, so
the run falls through to the standard-style escalation-note append. This is
the input of the repository's own (failing) test
`test_limited_access_region_adds_cost_aware_action`. -/
theorem limited_access_region_lacks_lower_cost_action :
    (runTriage {} [] none
        { symptoms := ["persistent vomiting"], vitals := { spo2_percent := some 96 },
          environment := "limited_access_region" }).urgency = "urgent" ∧
    ((runTriage {} [] none
        { symptoms := ["persistent vomiting"], vitals := { spo2_percent := some 96 },
          environment := "limited_access_region" }).immediate_actions.any
      (fun a => strIn "lower-cost diagnostics" (pyToLower a))) = false := by
  decide

theorem extractSymptoms_ne_nil (msg : String) (tr : List String) :
    extractSymptomsFromText msg tr ≠ [] := by
  unfold extractSymptomsFromText
  dsimp only
  split_ifs with h
  · simp
  · intro hnil
    exact h (by rw [hnil]; rfl)

theorem intakeStep_inr_symptoms (maxTurns : Nat) (s : PatientSessionInput)
    (st : IntakeLoopState) (intake : Intake)
    (h : intakeStep maxTurns s st = .inr intake) : intake.symptoms ≠ [] := by
  unfold intakeStep at h
  dsimp only at h
  split at h
  · exact absurd h (by simp)
  · split at h
    · injection h with h'
      subst h'
      exact extractSymptoms_ne_nil _ _
    · exact absurd h (by simp)

theorem intakeStep_inl_measure (maxTurns : Nat) (s : PatientSessionInput)
    (st st' : IntakeLoopState) (h : intakeStep maxTurns s st = .inl st') :
    intakeMeasure maxTurns s st' < intakeMeasure maxTurns s st := by
  unfold intakeStep at h
  dsimp only at h
  split at h
  · rename_i hcam
    injection h with h'
    subst h'
    unfold intakeMeasure
    dsimp only
    simp only [hcam]
    simp
  · rename_i hcam
    split at h
    · exact absurd h (by simp)
    · rename_i hcomp
      injection h with h'
      subst h'
      have hturn : st.turn_count < maxTurns := by
        simp only [Bool.or_eq_true, decide_eq_true_eq, not_or] at hcomp
        omega
      unfold intakeMeasure
      dsimp only
      cases hcond : (s.camera_enabled && !st.camera_done) <;> simp [hcond] <;> omega

theorem intakeLoopAux_some (maxTurns : Nat) (s : PatientSessionInput) :
    ∀ fuel st, intakeMeasure maxTurns s st < fuel →
    ∃ intake, intakeLoopAux maxTurns s fuel st = some intake ∧ intake.symptoms ≠ [] := by
  intro fuel
  induction fuel with
  | zero => exact fun st h => absurd h (Nat.not_lt_zero _)
  | succ fuel ih =>
    intro st h
    cases hstep : intakeStep maxTurns s st with
    | inr intake =>
      exact ⟨intake, by simp [intakeLoopAux, hstep], intakeStep_inr_symptoms _ _ _ _ hstep⟩
    | inl st' =>
      have hlt := intakeStep_inl_measure _ _ _ _ hstep
      obtain ⟨intake, hrun, hsym⟩ := ih st' (by omega)
      exact ⟨intake, by simp [intakeLoopAux, hstep, hrun], hsym⟩

/-- C4: the iterative intake loop terminates for every session within the
configured bound (`max_turns` follow-up turns plus at most one camera step:
fuel `max_turns + 2` always suffices), and the finalized intake has a
non-empty symptom list; the extractor falls back to the `"general malaise"`
sentinel when nothing is detected. -/
theorem intake_loop_terminates (maxTurns : Nat) (s : PatientSessionInput) :
    (∃ intake, runIntakeWorkflow maxTurns s = some intake ∧ intake.symptoms ≠ []) ∧
    (∀ msg tr, detectedSymptoms msg tr = [] →
      extractSymptomsFromText msg tr = ["general malaise"]) := by
  constructor
  · refine intakeLoopAux_some maxTurns s (maxTurns + 2) (initIntakeState s) ?_
    unfold intakeMeasure initIntakeState
    dsimp only
    split_ifs <;> omega
  · intro msg tr h
    unfold extractSymptomsFromText
    simp [h]

/-- C4 witness: a camera-disabled session with an empty message finalizes, and
an empty text extracts the sentinel symptom list. -/
theorem intake_loop_terminates_witness :
    (runIntakeWorkflow 4 { patient_message := "", camera_enabled := false }).isSome = true ∧
    extractSymptomsFromText "" [] = ["general malaise"] := by
  obtain ⟨⟨intake, hrun, _⟩, hfb⟩ :=
    intake_loop_terminates 4 { patient_message := "", camera_enabled := false }
  exact ⟨by rw [hrun]; rfl, hfb "" [] (by decide)⟩

/-- C5: unless escalation is globally disabled, every `urgent` or `emergency`
triage urgency makes the escalation arbiter call the expensive model,
independent of the cheap classifier's verdict and the session's forced-model
flag; when escalation is disabled, the expensive model is never called. -/
theorem escalation_decision_for_nonroutine (disabled : Bool)
    (s : ConversationSessionInput) (triage : TriageResult) (cheap : Bool × String) :
    (disabled = true → (decideMedgemma disabled s triage cheap).1 = false) ∧
    (disabled = false → (triage.urgency = "urgent" ∨ triage.urgency = "emergency") →
      (decideMedgemma disabled s triage cheap).1 = true) := by
  constructor
  · intro h
    subst h
    rfl
  · intro h hu
    subst h
    unfold decideMedgemma
    rcases hu with h | h <;> simp [h]

/-- C5 witness: disabled configuration never calls; urgent urgency always
calls even when the cheap classifier says no and no force flag is set. -/
theorem escalation_decision_for_nonroutine_witness :
    (decideMedgemma true {} (plainTriage "emergency") (true, "cheap yes")).1 = false ∧
    (decideMedgemma false {} (plainTriage "urgent") (false, "cheap no")).1 = true :=
  ⟨(escalation_decision_for_nonroutine true {} (plainTriage "emergency") (true, "cheap yes")).1 rfl,
   (escalation_decision_for_nonroutine false {} (plainTriage "urgent") (false, "cheap no")).2
      rfl (Or.inl rfl)⟩

/-- C6: in structured-output reconciliation, a parsed urgency that does not
normalize to one of the three literals leaves the prior urgency in place, and
the immediate-action list is replaced only by a non-empty parsed list —
an empty or missing (or non-list) parsed action list keeps the prior list. -/
theorem structured_reconciliation_validation (triage : TriageResult) (p : MedgemmaParsed) :
    (∀ u, p.urgency = some u →
      pyToLower u ≠ "emergency" → pyToLower u ≠ "urgent" → pyToLower u ≠ "routine" →
      (medgemmaRecommendStructured triage p).urgency = triage.urgency) ∧
    (∀ l, p.immediate_actions = some l → l ≠ [] →
      (medgemmaRecommendStructured triage p).immediate_actions = l) ∧
    (p.immediate_actions = some [] →
      (medgemmaRecommendStructured triage p).immediate_actions = triage.immediate_actions) ∧
    (p.immediate_actions = none →
      (medgemmaRecommendStructured triage p).immediate_actions = triage.immediate_actions) := by
  refine ⟨?_, ?_, ?_, ?_⟩
  · intro u hu h1 h2 h3
    unfold medgemmaRecommendStructured
    rw [hu]
    dsimp only [Option.getD]
    simp [h1, h2, h3]
  · intro l hl hne
    unfold medgemmaRecommendStructured
    rw [hl]
    dsimp only
    cases l with
    | nil => exact absurd rfl hne
    | cons a t => rfl
  · intro hl
    unfold medgemmaRecommendStructured
    rw [hl]
    rfl
  · intro hl
    unfold medgemmaRecommendStructured
    rw [hl]

/-- C6 witness: an invalid parsed urgency (`"banana"`) together with an empty
parsed action list keeps both the prior urgency and the prior actions. -/
theorem structured_reconciliation_validation_witness :
    (medgemmaRecommendStructured (plainTriage "urgent")
        { urgency := some "banana", immediate_actions := some [] }).urgency = "urgent" ∧
    (medgemmaRecommendStructured (plainTriage "urgent")
        { urgency := some "banana", immediate_actions := some [] }).immediate_actions
      = ["a1", "a2"] := by
  have h := structured_reconciliation_validation (plainTriage "urgent")
    { urgency := some "banana", immediate_actions := some [] }
  exact ⟨h.1 "banana" rfl (by decide) (by decide) (by decide), h.2.2.1 rfl⟩

/-- C9: the escalation arbiter's reconciliation never discards prior
rationale — the result either is the untouched prior triage result, or it
carries the prior rationale trail extended by exactly one new entry. -/
theorem reconciliation_extends_rationale (triage : TriageResult)
    (parsed : Option MedgemmaParsed) (raw : String) :
    (medgemmaRecommendNode triage parsed raw).1 = triage ∨
    ∃ e, ((medgemmaRecommendNode triage parsed raw).1).rationale
        = triage.rationale ++ [e] := by
  cases parsed with
  | some p => exact Or.inr ⟨_, rfl⟩
  | none =>
    unfold medgemmaRecommendNode
    split_ifs with hraw hun
    · exact Or.inl rfl
    · dsimp only
      unfold overrideTriageFromText
      dsimp only
      by_cases htrim : pyTrim raw = ""
      · rw [if_pos htrim]
        exact Or.inl rfl
      · rw [if_neg htrim]
        exact Or.inr ⟨_, rfl⟩
    · exact Or.inl rfl

theorem listAnyCongr {α : Type} {l : List α} {p q : α → Bool}
    (h : ∀ x ∈ l, p x = q x) : l.any p = l.any q := by
  induction l with
  | nil => rfl
  | cons a t ih =>
    simp only [List.any_cons]
    rw [h a (by simp), ih (fun x hx => h x (by simp [hx]))]

theorem assignPriority_fst (cfg : TriageConfig) (intake : Intake) (c : String)
    (r : List String) :
    (assignPriority cfg intake c r).1 =
      if isEmergency cfg c intake then "emergency"
      else if isUrgent cfg c intake then "urgent" else "routine" := by
  unfold assignPriority
  dsimp only
  split_ifs <;> rfl

theorem considered_mem_assignPriority (cfg : TriageConfig) (intake : Intake) (c : String)
    (r : List String) (h : optStrTruthy intake.scan_findings = true) :
    "Scan findings were included and considered for prioritization."
      ∈ (assignPriority cfg intake c r).2 := by
  unfold assignPriority
  dsimp only
  split_ifs <;> simp_all

theorem mem_applyEnv_of_mem (intake : Intake) (u : String) (a : List String) (n : String)
    (r : List String) (x : String) (hx : x ∈ r) :
    x ∈ (applyEnvironmentConstraints intake u a n r).rationale := by
  unfold applyEnvironmentConstraints
  split_ifs <;> simp [hx]

/-- C7 counterexample: two intakes identical except for the scan-findings
field receive different urgencies — `_combined_text` places
`intake.scan_findings` inside the keyword-matched text, so scan findings that
contain a trigger word flip the urgency (here from `"routine"` to a
guardrail-forced `"emergency"`). -/
theorem scan_findings_change_urgency :
    ({ symptoms := ["cough"], scan_findings := some "stroke" } : Intake)
        = { ({ symptoms := ["cough"] } : Intake) with scan_findings := some "stroke" } ∧
    (runTriage {} [] none { symptoms := ["cough"] }).urgency = "routine" ∧
    (runTriage {} [] none { symptoms := ["cough"] }).guardrail_triggered = false ∧
    (runTriage {} [] none
        { symptoms := ["cough"], scan_findings := some "stroke" }).urgency = "emergency" ∧
    (runTriage {} [] none
        { symptoms := ["cough"], scan_findings := some "stroke" }).guardrail_triggered
      = true := by
  decide

/-- C7 (amended): scan findings influence the urgency only through their
inclusion in the combined keyword-matched text — when adding the scan
findings leaves every hard-trigger and emergency/urgent keyword match
unchanged, both intakes receive the same urgency and guardrail flag; and on a
non-guardrail run, present scan findings add the "considered" entry to the
rationale trail. -/
theorem scan_findings_amended (cfg : TriageConfig) (repo : List PatientRecord)
    (llm : Option String) (i : Intake) (sf : Option String)
    (hkw : ∀ t ∈ hardGuardrailTerms ++ cfg.emergency_keywords ++ cfg.urgent_keywords,
      strIn t (runCombined repo i)
        = strIn t (runCombined repo { i with scan_findings := sf })) :
    (runTriage cfg repo llm i).urgency
        = (runTriage cfg repo llm { i with scan_findings := sf }).urgency ∧
    (runTriage cfg repo llm i).guardrail_triggered
        = (runTriage cfg repo llm { i with scan_findings := sf }).guardrail_triggered ∧
    (optStrTruthy sf = true →
      (runTriage cfg repo llm { i with scan_findings := sf }).guardrail_triggered = false →
      "Scan findings were included and considered for prioritization."
        ∈ (runTriage cfg repo llm { i with scan_findings := sf }).rationale) := by
  set i' := { i with scan_findings := sf } with hi'
  have hterms : ∀ t ∈ hardGuardrailTerms,
      strIn t (runCombined repo i') = strIn t (runCombined repo i) :=
    fun t ht => (hkw t (by simp [ht])).symm
  have hem : ∀ t ∈ cfg.emergency_keywords,
      strIn t (runCombined repo i') = strIn t (runCombined repo i) :=
    fun t ht => (hkw t (by simp [ht])).symm
  have hur : ∀ t ∈ cfg.urgent_keywords,
      strIn t (runCombined repo i') = strIn t (runCombined repo i) :=
    fun t ht => (hkw t (by simp [ht])).symm
  have hreasons : runReasons cfg repo i' = runReasons cfg repo i := by
    unfold runReasons guardrailReasons
    have h1 : hardGuardrailTerms.filter (fun term => strIn term (runCombined repo i'))
        = hardGuardrailTerms.filter (fun term => strIn term (runCombined repo i)) :=
      List.filter_congr (fun x hx => hterms x hx)
    rw [h1]
  have hanyem : isEmergency cfg (runCombined repo i') i'
      = isEmergency cfg (runCombined repo i) i := by
    unfold isEmergency
    rw [listAnyCongr (fun x hx => hem x hx)]
  have hanyur : isUrgent cfg (runCombined repo i') i'
      = isUrgent cfg (runCombined repo i) i := by
    unfold isUrgent
    rw [listAnyCongr (fun x hx => hur x hx)]
  have hfst : (runUrgencyRationale cfg repo i').1 = (runUrgencyRationale cfg repo i).1 := by
    unfold runUrgencyRationale
    rw [hreasons]
    by_cases hie : (runReasons cfg repo i).isEmpty = true
    · simp only [hie, if_true]
      rw [assignPriority_fst, assignPriority_fst, hanyem, hanyur]
    · simp [hie]
  refine ⟨?_, ?_, ?_⟩
  · rw [runTriage_urgency, runTriage_urgency, hfst]
  · rw [runTriage_triggered, runTriage_triggered, hreasons]
  · intro hsf htrig
    rw [runTriage_triggered] at htrig
    have hie : (runReasons cfg repo i').isEmpty = true := by
      rwa [Bool.not_eq_false'] at htrig
    rw [runTriage_rationale]
    apply mem_applyEnv_of_mem
    unfold runUrgencyRationale
    simp only [hie, if_true]
    exact considered_mem_assignPriority _ _ _ _ hsf

/-- C7 amended witness: a scan-findings text with no trigger or keyword word
leaves every keyword match unchanged, so the urgency is the same and the
"considered" entry is recorded. -/
theorem scan_findings_amended_witness :
    (runTriage {} [] none { symptoms := ["cough"] }).urgency
        = (runTriage {} [] none
            { ({ symptoms := ["cough"] } : Intake) with
              scan_findings := some "benign nodule noted" }).urgency ∧
    "Scan findings were included and considered for prioritization."
      ∈ (runTriage {} [] none
          { ({ symptoms := ["cough"] } : Intake) with
            scan_findings := some "benign nodule noted" }).rationale := by
  have h := scan_findings_amended {} [] none { symptoms := ["cough"] }
    (some "benign nodule noted") (by decide)
  exact ⟨h.1, h.2.2 (by decide) (by decide)⟩

/-- C10: the verification gate flags a mismatch exactly when the camera is
enabled and either both ages are present and differ by at least 15 years, or
both sexes are present (non-empty) and differ after lowercasing; and the
conversation graph routes to the clarifying follow-up node exactly on a
mismatch. -/
theorem verification_gate_iff (s : ConversationSessionInput) :
    ((verifyUser s).2 = (s.camera_enabled &&
      ((match s.camera_estimated_age, s.age_years with
        | some est, some claimed => decide (15 ≤ (est - claimed).natAbs)
        | _, _ => false)
      || (optStrTruthy s.camera_estimated_sex && optStrTruthy s.sex
          && decide (pyToLower ((s.camera_estimated_sex).getD "")
              ≠ pyToLower ((s.sex).getD "")))))) ∧
    routeAfterVerification (verifyUser s).2
      = (if (verifyUser s).2 = true then "verification_followup" else "generate_intake") := by
  constructor
  · unfold verifyUser
    dsimp only
    cases hc : s.camera_enabled <;>
      rcases ha : s.camera_estimated_age with _ | est <;>
      rcases hy : s.age_years with _ | claimed <;>
      rcases hsx : s.camera_estimated_sex with _ | est_s <;>
      rcases hss : s.sex with _ | claimed_s <;>
      simp [optStrTruthy] <;> split_ifs <;> simp_all
  · rfl

end Accolade
